import Mathlib

/-!
Shallow embedding of `rev.py` (Storm_gpt): a sequential pipeline that loads
student Word documents, extracts per-question answers through an LLM call,
aggregates concept frequencies, generates a grading rubric and exports
reports.  Parsed LLM responses are modelled by the JSON-like value type
`JVal`; Python operations that can raise (`.get` on a non-dict,
`", ".join` over non-strings, iterating a non-iterable) are modelled in
`Except String`.
-/

/-- A parsed JSON value, as produced by `json.loads`.  Numbers are modelled
as integers (no claim computes with a numeric field value). -/
inductive JVal where
  | jnull : JVal
  | jbool : Bool → JVal
  | jnum : Int → JVal
  | jstr : String → JVal
  | jlist : List JVal → JVal
  | jdict : List (String × JVal) → JVal

open JVal

mutual

/-- Decidable equality on `JVal` (the automatic derivation does not handle
the nested lists). -/
def JVal.decEq : (a b : JVal) → Decidable (a = b)
  | jnull, jnull => isTrue rfl
  | jbool a, jbool b =>
      if h : a = b then isTrue (by subst h; rfl)
      else isFalse (fun hh => h (by cases hh; rfl))
  | jnum a, jnum b =>
      if h : a = b then isTrue (by subst h; rfl)
      else isFalse (fun hh => h (by cases hh; rfl))
  | jstr a, jstr b =>
      if h : a = b then isTrue (by subst h; rfl)
      else isFalse (fun hh => h (by cases hh; rfl))
  | jlist xs, jlist ys =>
      match JVal.decEqList xs ys with
      | isTrue h => isTrue (by subst h; rfl)
      | isFalse h => isFalse (fun hh => h (by cases hh; rfl))
  | jdict xs, jdict ys =>
      match JVal.decEqDict xs ys with
      | isTrue h => isTrue (by subst h; rfl)
      | isFalse h => isFalse (fun hh => h (by cases hh; rfl))
  | jnull, jbool _ => isFalse (fun h => JVal.noConfusion h)
  | jnull, jnum _ => isFalse (fun h => JVal.noConfusion h)
  | jnull, jstr _ => isFalse (fun h => JVal.noConfusion h)
  | jnull, jlist _ => isFalse (fun h => JVal.noConfusion h)
  | jnull, jdict _ => isFalse (fun h => JVal.noConfusion h)
  | jbool _, jnull => isFalse (fun h => JVal.noConfusion h)
  | jbool _, jnum _ => isFalse (fun h => JVal.noConfusion h)
  | jbool _, jstr _ => isFalse (fun h => JVal.noConfusion h)
  | jbool _, jlist _ => isFalse (fun h => JVal.noConfusion h)
  | jbool _, jdict _ => isFalse (fun h => JVal.noConfusion h)
  | jnum _, jnull => isFalse (fun h => JVal.noConfusion h)
  | jnum _, jbool _ => isFalse (fun h => JVal.noConfusion h)
  | jnum _, jstr _ => isFalse (fun h => JVal.noConfusion h)
  | jnum _, jlist _ => isFalse (fun h => JVal.noConfusion h)
  | jnum _, jdict _ => isFalse (fun h => JVal.noConfusion h)
  | jstr _, jnull => isFalse (fun h => JVal.noConfusion h)
  | jstr _, jbool _ => isFalse (fun h => JVal.noConfusion h)
  | jstr _, jnum _ => isFalse (fun h => JVal.noConfusion h)
  | jstr _, jlist _ => isFalse (fun h => JVal.noConfusion h)
  | jstr _, jdict _ => isFalse (fun h => JVal.noConfusion h)
  | jlist _, jnull => isFalse (fun h => JVal.noConfusion h)
  | jlist _, jbool _ => isFalse (fun h => JVal.noConfusion h)
  | jlist _, jnum _ => isFalse (fun h => JVal.noConfusion h)
  | jlist _, jstr _ => isFalse (fun h => JVal.noConfusion h)
  | jlist _, jdict _ => isFalse (fun h => JVal.noConfusion h)
  | jdict _, jnull => isFalse (fun h => JVal.noConfusion h)
  | jdict _, jbool _ => isFalse (fun h => JVal.noConfusion h)
  | jdict _, jnum _ => isFalse (fun h => JVal.noConfusion h)
  | jdict _, jstr _ => isFalse (fun h => JVal.noConfusion h)
  | jdict _, jlist _ => isFalse (fun h => JVal.noConfusion h)
termination_by a _ => sizeOf a

/-- Decidable equality on lists of `JVal`. -/
def JVal.decEqList : (xs ys : List JVal) → Decidable (xs = ys)
  | [], [] => isTrue rfl
  | [], _ :: _ => isFalse (fun h => List.noConfusion h)
  | _ :: _, [] => isFalse (fun h => List.noConfusion h)
  | x :: xs, y :: ys =>
      match JVal.decEq x y with
      | isFalse h => isFalse (fun hh => h (by cases hh; rfl))
      | isTrue h =>
          match JVal.decEqList xs ys with
          | isTrue h2 => isTrue (by subst h; subst h2; rfl)
          | isFalse h2 => isFalse (fun hh => h2 (by cases hh; rfl))
termination_by xs _ => sizeOf xs

/-- Decidable equality on string-keyed association lists of `JVal`. -/
def JVal.decEqDict : (xs ys : List (String × JVal)) → Decidable (xs = ys)
  | [], [] => isTrue rfl
  | [], _ :: _ => isFalse (fun h => List.noConfusion h)
  | _ :: _, [] => isFalse (fun h => List.noConfusion h)
  | (k, v) :: xs, (k2, v2) :: ys =>
      if hk : k = k2 then
        match JVal.decEq v v2 with
        | isFalse h => isFalse (fun hh => h (by cases hh; rfl))
        | isTrue h =>
            match JVal.decEqDict xs ys with
            | isTrue h2 => isTrue (by subst hk; subst h; subst h2; rfl)
            | isFalse h2 => isFalse (fun hh => h2 (by cases hh; rfl))
      else isFalse (fun hh => hk (by cases hh; rfl))
termination_by xs _ => sizeOf xs

end

instance : DecidableEq JVal := JVal.decEq

/-- First-match lookup in an association list, the model of Python dict
indexing (JSON objects have unique keys). -/
def dictGet (kvs : List (String × JVal)) (k : String) : Option JVal :=
  match kvs.find? (fun p => p.1 == k) with
  | some p => some p.2
  | none => none

/-- Python `d.get(key, default)` where the receiver may be any value:
on a non-dict receiver, attribute access raises `AttributeError`. -/
def JVal.pyGet : JVal → String → JVal → Except String JVal
  | jdict kvs, k, d => .ok ((dictGet kvs k).getD d)
  | _, _, _ => .error "AttributeError"

/-- Normalisation used at guarded consumption points:
`if not isinstance(x, list): x = []`. -/
def normList (v : JVal) : List JVal :=
  match v with
  | jlist xs => xs
  | _ => []

/-- Extract the underlying strings of a list of values, if all are strings. -/
def asStrings : List JVal → Option (List String)
  | [] => some []
  | jstr s :: rest => (asStrings rest).map (fun ss => s :: ss)
  | _ => none

/-- Python `sep.join(xs)`: raises `TypeError` when any element is not a
string. -/
def pyJoin (sep : String) (xs : List JVal) : Except String String :=
  match asStrings xs with
  | some ss => .ok (String.intercalate sep ss)
  | none => .error "TypeError"

/-- Python truthiness of a JSON value. -/
def pyTruthy : JVal → Bool
  | jnull => false
  | jbool b => b
  | jnum n => n != 0
  | jstr s => !s.isEmpty
  | jlist xs => !xs.isEmpty
  | jdict kvs => !kvs.isEmpty

/-- Python `for x in v`: lists iterate their elements, strings their
characters, dicts their keys; other values raise `TypeError`. -/
def pyIterList : JVal → Except String (List JVal)
  | jlist xs => .ok xs
  | jstr s => .ok (s.toList.map (fun c => jstr (String.singleton c)))
  | jdict kvs => .ok (kvs.map (fun p => jstr p.1))
  | _ => .error "TypeError"

/-- Display rendering used for f-string interpolation.  Only the fact that
formatting never raises matters to any claim; nested list/dict rendering is
abbreviated. -/
def JVal.fmt : JVal → String
  | jnull => "None"
  | jbool b => if b then "True" else "False"
  | jnum n => toString n
  | jstr s => s
  | jlist _ => "<list>"
  | jdict _ => "<dict>"

/-- Python `v == "lit"` for a string literal: true exactly when `v` is that
string (a non-string value never equals a string in Python).  Structurally
recursive, so concrete runs reduce definitionally. -/
def JVal.eqStr : JVal → String → Bool
  | jstr s, t => s == t
  | _, _ => false

/-- Python slicing `v[:n]` on a value of unknown type: strings and lists
truncate, other values raise `TypeError`. -/
def pySlice (v : JVal) (n : Nat) : Except String JVal :=
  match v with
  | jstr s => .ok (jstr (s.take n))
  | jlist xs => .ok (jlist (xs.take n))
  | _ => .error "TypeError"

/-- The fixed exam question list (`PREGUNTAS`). -/
def PREGUNTAS : List String :=
  [ "¿En qué consiste un fondo 130/30 fund? ¿Cuáles son las ventajas y desventajas de estos fondos con respecto a fondos \x27long-only\x27?"
  , "¿En qué consiste la estrategia low-vol? ¿Qué anomalía empírica da pie para implementar esta estrategia?"
  , "¿Qué argumentos a favor tenía Martingale para continuar/expandir estrategias 130/30 + low_vol en ese entonces?" ]

/-- The per-question key `pregunta_<n>` used by every stage. -/
def qKey (q : Nat) : String := "pregunta_" ++ toString q

/-- One loaded Word document. -/
structure Doc where
  filename : String
  student_name : String
  folder_path : String
  full_text : String
  deriving DecidableEq

/-- The per-document extraction result kept in `self.extracted_answers`:
the student name together with the parsed LLM response object. -/
structure ExtractedAnswer where
  student_name : String
  answers : List (String × JVal)
  deriving DecidableEq

/-! ## Counter model

`collections.Counter` over the values of a list: its keys are in
first-occurrence order and `most_common` sorts stably by descending count
(CPython documents that elements with equal counts keep first-encountered
order). -/

/-- The keys of a `Counter` built from `l`, in first-occurrence order. -/
def firstOccs : List JVal → List JVal
  | [] => []
  | x :: xs => x :: (firstOccs xs).filter (fun y => y != x)

/-- The `(key, count)` items of `Counter(l)`, in first-occurrence order. -/
def counterItems (l : List JVal) : List (JVal × Nat) :=
  (firstOccs l).map (fun k => (k, l.count k))

/-- Stable insertion of an item into a count-descending list: the item goes
before the first entry whose count does not exceed its own. -/
def insertDesc (p : JVal × Nat) : List (JVal × Nat) → List (JVal × Nat)
  | [] => [p]
  | q :: qs => if q.2 ≤ p.2 then p :: q :: qs else q :: insertDesc p qs

/-- Stable sort by descending count, the model of
`sorted(items, key=count, reverse=True)` underlying `Counter.most_common`. -/
def sortDesc : List (JVal × Nat) → List (JVal × Nat)
  | [] => []
  | p :: ps => insertDesc p (sortDesc ps)

/-- `Counter(l).most_common(n)`. -/
def mostCommon (l : List JVal) (n : Nat) : List (JVal × Nat) :=
  (sortDesc (counterItems l)).take n

/-- `dict(counter).get(k, 0)`. -/
def lookupCount (items : List (JVal × Nat)) (k : String) : Nat :=
  match items.find? (fun p => p.1.eqStr k) with
  | some p => p.2
  | none => 0

/-! ## Document Loader -/

/-- One file discovered by `rglob("*.docx")`: its name, its immediate
parent folder name, the folder path, and either its paragraph texts or a
read error. -/
structure FileEntry where
  name : String
  parentName : String
  parentPath : String
  content : Except String (List String)

/-- `load_documents` (`rev.py:79-107`): drop lock files (names starting
with the `~$` marker), then read each remaining file in discovery order,
skipping files whose read raises; the student name is the immediate parent
folder name and `full_text` joins the paragraph texts with newlines. -/
def loadDocuments (files : List FileEntry) : List Doc :=
  (files.filter (fun f => !(f.name.startsWith "~$"))).filterMap (fun f =>
    match f.content with
    | .ok paras => some ⟨f.name, f.parentName, f.parentPath, String.intercalate "\n" paras⟩
    | .error _ => none)

/-- The per-file read errors the loader reports, in discovery order. -/
def loadErrors (files : List FileEntry) : List String :=
  (files.filter (fun f => !(f.name.startsWith "~$"))).filterMap (fun f =>
    match f.content with
    | .ok _ => none
    | .error e => some e)

/-! ## Answer Extractor -/

/-- Sequence a list of fallible computations, keeping all results. -/
def mapExcept (f : α → Except String β) : List α → Except String (List β)
  | [] => .ok []
  | x :: xs => do
      let y ← f x
      let ys ← mapExcept f xs
      .ok (y :: ys)

/-- One question line of the rolling-context summary (`rev.py:133-142`):
a non-empty key-point list renders its first three entries, a string
key-point field renders its first 200 characters, an entry that is not an
object or lacks `key_points` renders a placeholder, and any other shape of
`key_points` renders nothing.  The join raises `TypeError` when a rendered
key point is not a string. -/
def renderAnswerLine (q_num : String) (answer : JVal) : Except String String :=
  match answer with
  | jdict kvs =>
      match dictGet kvs "key_points" with
      | some kp =>
          match kp with
          | jlist xs =>
              if xs.isEmpty then .ok ""
              else (pyJoin ", " (xs.take 3)).map
                (fun s => "  Pregunta " ++ q_num ++ ": " ++ s ++ "...\n")
          | jstr s => .ok ("  Pregunta " ++ q_num ++ ": " ++ s.take 200 ++ "...\n")
          | _ => .ok ""
      | none => .ok ("  Pregunta " ++ q_num ++ ": [Análisis previo]\n")
  | _ => .ok ("  Pregunta " ++ q_num ++ ": [Análisis previo]\n")

/-- The context block for one previously analysed document
(`rev.py:132-143`): its student name followed by one rendering per entry of
its answer object, in insertion order. -/
def renderPrev (prev : ExtractedAnswer) : Except String String := do
  let lines ← mapExcept (fun p => renderAnswerLine p.1 p.2) prev.answers
  .ok ("Documento: " ++ prev.student_name ++ "\n" ++ String.join lines ++ "\n")

/-- The rolling-context summary (`rev.py:127-143`): empty when no prior
document was analysed, otherwise a header followed by the blocks of the at
most three most recently processed prior documents
(`extracted_answers[-3:]`). -/
def buildContext (prior : List ExtractedAnswer) : Except String String :=
  if prior.isEmpty then .ok ""
  else do
    let blocks ← mapExcept renderPrev (prior.drop (prior.length - 3))
    .ok ("\n\n### CONTEXTO DE DOCUMENTOS ANTERIORES:\nHas analizado los siguientes documentos previamente:\n\n"
      ++ String.join blocks)

/-- The console-summary pass over one parsed response for one question
(`rev.py:226-241`), inside the extraction `try`: a well-formed question
entry has its normalised concept list joined with `", "`, which raises
`TypeError` on a non-string concept; everything else is skipped. -/
def printQuestionSummary (result : List (String × JVal)) (q : Nat) : Except String Unit :=
  match dictGet result (qKey q) with
  | some (jdict qd) =>
      let conceptos := normList ((dictGet qd "conceptos_mencionados").getD (jlist []))
      if conceptos.isEmpty then .ok ()
      else do
        let _ ← pyJoin ", " conceptos
        .ok ()
  | _ => .ok ()

/-- The console summary over the three questions (`rev.py:226-241`). -/
def printSummary (result : List (String × JVal)) : Except String Unit := do
  let _ ← printQuestionSummary result 1
  let _ ← printQuestionSummary result 2
  let _ ← printQuestionSummary result 3
  .ok ()

/-- The outcome of `extract_answers_from_document` once its context is
built (`rev.py:199-253`): `none` when the client is missing, when the
response fails to parse as JSON, or when the console summary raises inside
the `try`; otherwise the parsed response paired with the student name. -/
def stepResult (clientOk : Bool) (doc : Doc)
    (resp : Except String (List (String × JVal))) : Option ExtractedAnswer :=
  if clientOk then
    match resp with
    | .ok r =>
        match printSummary r with
        | .ok _ => some ⟨doc.student_name, r⟩
        | .error _ => none
    | .error _ => none
  else none

/-- `analyze_patterns_iteratively` (`rev.py:255-266`): documents are
processed strictly in order, each paired with the single response its one
request produces (no retry); successful extractions are appended to the
accumulator, failed ones are skipped.  The rolling context is built before
each request, outside the `try`, so a `TypeError` there aborts the run. -/
def analyzeIteratively (clientOk : Bool) (acc : List ExtractedAnswer) :
    List (Doc × Except String (List (String × JVal))) →
    Except String (List ExtractedAnswer)
  | [] => .ok acc
  | (d, r) :: rest => do
      let _ ← buildContext acc
      match stepResult clientOk d r with
      | some a => analyzeIteratively clientOk (acc ++ [a]) rest
      | none => analyzeIteratively clientOk acc rest

/-! ## Pattern Synthesizer -/

/-- A document's entry for one question, when it is well formed: the key is
present and maps to an object (`rev.py:286`). -/
def wfAnswer (d : ExtractedAnswer) (qk : String) : Option (List (String × JVal)) :=
  match dictGet d.answers qk with
  | some (jdict kvs) => some kvs
  | _ => none

/-- All concepts collected for one question across the extracted answers
(`rev.py:285-292`): well-formed entries contribute their
`conceptos_mencionados` when that field is a list; everything else
contributes nothing. -/
def allConcepts (answers : List ExtractedAnswer) (qk : String) : List JVal :=
  answers.flatMap (fun d =>
    match wfAnswer d qk with
    | some kvs => normList ((dictGet kvs "conceptos_mencionados").getD (jlist []))
    | none => [])

/-- All key points collected for one question (`rev.py:294-297`). -/
def allKeyPoints (answers : List ExtractedAnswer) (qk : String) : List JVal :=
  answers.flatMap (fun d =>
    match wfAnswer d qk with
    | some kvs => normList ((dictGet kvs "key_points").getD (jlist []))
    | none => [])

/-- The quality labels counted for one question (`rev.py:299`): one label
per well-formed answer, defaulting to `"N/A"`. -/
def qualityLabels (answers : List ExtractedAnswer) (qk : String) : List JVal :=
  answers.filterMap (fun d =>
    (wfAnswer d qk).map (fun kvs => (dictGet kvs "calidad_estimada").getD (jstr "N/A")))

/-- The per-question statistics stored in `self.pattern_analysis`
(`rev.py:316-322`). -/
structure PatternStats where
  pregunta : String
  total_respuestas : Nat
  conceptos_frecuentes : List (JVal × Nat)
  puntos_clave_comunes : List JVal
  distribucion_calidad : List (JVal × Nat)
  deriving DecidableEq

/-- `synthesize_patterns` for one question (`rev.py:280-322`). -/
def synthesizeQuestion (answers : List ExtractedAnswer) (q : Nat) : PatternStats :=
  { pregunta := PREGUNTAS.getD (q - 1) ""
  , total_respuestas := answers.length
  , conceptos_frecuentes := mostCommon (allConcepts answers (qKey q)) 10
  , puntos_clave_comunes := allKeyPoints answers (qKey q)
  , distribucion_calidad := counterItems (qualityLabels answers (qKey q)) }

/-- `self.pattern_analysis`: the per-question statistics keyed by
`pregunta_1 .. pregunta_3` (`rev.py:274-322`). -/
def patternAnalysis (answers : List ExtractedAnswer) : List (String × PatternStats) :=
  [1, 2, 3].map (fun q => (qKey q, synthesizeQuestion answers q))

/-- The percentage printed for a concept of frequency `freq`
(`rev.py:312`): `(freq / len(self.extracted_answers)) * 100`. -/
def printedPercentage (answers : List ExtractedAnswer) (freq : Nat) : ℚ :=
  ((freq : ℚ) / (answers.length : ℚ)) * 100

/-! ## Rubric Generator -/

/-- One collected high-quality example (`rev.py:346-350`). -/
structure RubricExample where
  pregunta : Nat
  estudiante : String
  respuesta : JVal
  deriving DecidableEq

/-- The contribution of one document and one question to the
high-quality-example list (`rev.py:342-350`).  Note the missing
`isinstance` guard: `.get` on a question entry that is present but not an
object raises `AttributeError`. -/
def qExample (d : ExtractedAnswer) (q : Nat) : Except String (List RubricExample) :=
  match dictGet d.answers (qKey q) with
  | none => .ok []
  | some v => do
      let cal ← v.pyGet "calidad_estimada" jnull
      if cal.eqStr "alta" then
        let resp ← v.pyGet "respuesta_completa" (jstr "")
        let trunc ← pySlice resp 500
        .ok [⟨q, d.student_name, trunc⟩]
      else .ok []

/-- `high_quality_examples` as accumulated by `generate_rubric`
(`rev.py:340-350`): documents in processing order, questions 1–3 inside
each document. -/
def collectHighQuality : List ExtractedAnswer → Except String (List RubricExample)
  | [] => .ok []
  | d :: ds => do
      let e1 ← qExample d 1
      let e2 ← qExample d 2
      let e3 ← qExample d 3
      let rest ← collectHighQuality ds
      .ok (e1 ++ e2 ++ e3 ++ rest)

/-- The examples actually included in the rubric prompt:
`high_quality_examples[:6]` (`rev.py:353`). -/
def promptExamples (answers : List ExtractedAnswer) : Except String (List RubricExample) :=
  (collectHighQuality answers).map (fun l => l.take 6)

/-- The rubric state after `generate_rubric` (`rev.py:324-434`), starting
from `rubric0`: building the prompt first traverses the high-quality
examples (outside the `try`, so its `AttributeError` propagates); then a
missing client or any request/parse failure leaves the rubric unchanged,
while a successfully parsed response replaces it. -/
def generateRubric (answers : List ExtractedAnswer) (clientOk : Bool)
    (resp : Except String (List (String × JVal)))
    (rubric0 : List (String × JVal)) : Except String (List (String × JVal)) := do
  let _ ← collectHighQuality answers
  if clientOk then
    match resp with
    | .ok r => .ok r
    | .error _ => .ok rubric0
  else .ok rubric0

/-! ## Report Exporter -/

/-- One row of `1_analisis_patrones.xlsx` (`rev.py:444-452`). -/
structure PatternRow where
  pregunta : String
  totalRespuestas : Nat
  conceptosMasFrecuentes : String
  calidadAlta : Nat
  calidadMedia : Nat
  calidadBaja : Nat
  deriving DecidableEq

/-- The pattern-report row for one question (`rev.py:444-452`): the three
quality columns look up the labels `alta`, `media`, `baja` with default
0. -/
def patternReportRow (st : PatternStats) : PatternRow :=
  { pregunta := st.pregunta.take 50 ++ "..."
  , totalRespuestas := st.total_respuestas
  , conceptosMasFrecuentes := String.intercalate ", "
      ((st.conceptos_frecuentes.take 3).map (fun p => p.1.fmt ++ " (" ++ toString p.2 ++ "x)"))
  , calidadAlta := lookupCount st.distribucion_calidad "alta"
  , calidadMedia := lookupCount st.distribucion_calidad "media"
  , calidadBaja := lookupCount st.distribucion_calidad "baja" }

/-- The rows of `1_analisis_patrones.xlsx`, one per question. -/
def patternReport (answers : List ExtractedAnswer) : List PatternRow :=
  (patternAnalysis answers).map (fun p => patternReportRow p.2)

/-- One row of `2_analisis_por_estudiante.xlsx` (`rev.py:476-483`). -/
structure StudentRow where
  estudiante : String
  pregunta : Nat
  conceptosMencionados : String
  numPuntosClave : Nat
  longitud : JVal
  calidad : JVal
  deriving DecidableEq

/-- The rows one document contributes for one question (`rev.py:461-483`):
the comma join of the concept list raises `TypeError` on a non-string
concept. -/
def studentRowsFor (d : ExtractedAnswer) (q : Nat) : Except String (List StudentRow) :=
  match wfAnswer d (qKey q) with
  | none => .ok []
  | some kvs => do
      let conceptos := normList ((dictGet kvs "conceptos_mencionados").getD (jlist []))
      let keyPoints := normList ((dictGet kvs "key_points").getD (jlist []))
      let joined ← pyJoin ", " conceptos
      .ok [{ estudiante := d.student_name
           , pregunta := q
           , conceptosMencionados := joined
           , numPuntosClave := keyPoints.length
           , longitud := (dictGet kvs "longitud_caracteres").getD (jnum 0)
           , calidad := (dictGet kvs "calidad_estimada").getD (jstr "N/A") }]

/-- All rows of `2_analisis_por_estudiante.xlsx`, documents in order,
questions 1–3 inside each. -/
def studentDetails : List ExtractedAnswer → Except String (List StudentRow)
  | [] => .ok []
  | d :: ds => do
      let r1 ← studentRowsFor d 1
      let r2 ← studentRowsFor d 2
      let r3 ← studentRowsFor d 3
      let rest ← studentDetails ds
      .ok (r1 ++ r2 ++ r3 ++ rest)

/-- The data written to `3_pauta_correccion.json` (`rev.py:490-492`):
`json.dump` serialises `self.rubric` verbatim. -/
def rubricJsonContent (rubric : List (String × JVal)) : List (String × JVal) := rubric

/-- The 80-equals banner line of the text rubric. -/
def bannerLine : String := String.mk (List.replicate 80 '=') ++ "\n"

/-- One mandatory/optional-element block (`rev.py:511-513`): `.get` on a
non-object element raises `AttributeError`. -/
def fmtElem (elem : JVal) : Except String String := do
  let pts ← elem.pyGet "puntos" (jnum 0)
  let con ← elem.pyGet "concepto" (jstr "N/A")
  let des ← elem.pyGet "descripcion" (jstr "")
  .ok ("  [" ++ pts.fmt ++ " pts] " ++ con.fmt ++ "\n           " ++ des.fmt ++ "\n\n")

/-- The banner-delimited section of `4_pauta_correccion.txt` for one
question (`rev.py:500-527`): an absent question key produces nothing; a
question entry that is not an object raises `AttributeError`. -/
def questionSection (rubric : List (String × JVal)) (q : Nat) : Except String String :=
  match dictGet rubric (qKey q) with
  | none => .ok ""
  | some rd => do
      let pts ← rd.pyGet "puntaje_total" (jstr "N/A")
      let oblig ← rd.pyGet "elementos_obligatorios" (jlist [])
      let obligL ← pyIterList oblig
      let obligParts ← mapExcept fmtElem obligL
      let desv ← rd.pyGet "elementos_deseables" (jlist [])
      let desPart ← if pyTruthy desv then do
          let desL ← pyIterList desv
          let parts ← mapExcept fmtElem desL
          pure ("\nELEMENTOS DESEABLES:\n" ++ String.join parts)
        else pure ""
      let crit ← rd.pyGet "criterios_calidad" (jlist [])
      let critL ← pyIterList crit
      let ej ← rd.pyGet "ejemplo_respuesta_ideal" (jstr "N/A")
      .ok ("\n" ++ bannerLine ++ "PREGUNTA " ++ toString q ++ "\n" ++ bannerLine
        ++ PREGUNTAS.getD (q - 1) "" ++ "\n\n"
        ++ "PUNTAJE TOTAL: " ++ pts.fmt ++ " puntos\n\n"
        ++ "ELEMENTOS OBLIGATORIOS:\n" ++ String.join obligParts
        ++ desPart
        ++ "\nCRITERIOS DE CALIDAD:\n"
        ++ String.join (critL.map (fun c => "  • " ++ c.fmt ++ "\n"))
        ++ "\nEJEMPLO DE RESPUESTA IDEAL:\n" ++ ej.fmt ++ "\n\n")

/-- The full text artifact `4_pauta_correccion.txt` (`rev.py:495-533`):
header, the three question sections, and a general-notes section when that
key is present.  Its only rubric reads are the keys
`pregunta_1 .. pregunta_3` and `notas_generales`. -/
def exportRubricText (rubric : List (String × JVal)) : Except String String := do
  let s1 ← questionSection rubric 1
  let s2 ← questionSection rubric 2
  let s3 ← questionSection rubric 3
  let notas := match dictGet rubric "notas_generales" with
    | some v => "\n" ++ bannerLine ++ "NOTAS GENERALES\n" ++ bannerLine ++ v.fmt ++ "\n"
    | none => ""
  .ok (bannerLine ++ "PAUTA DE CORRECCIÓN - EXAMEN DE FINANZAS\n" ++ bannerLine ++ "\n"
    ++ s1 ++ s2 ++ s3 ++ notas)

/-- A list-of-objects field: absent, or a list whose elements are all
objects. -/
def fieldListOk (rd : List (String × JVal)) (k : String) : Bool :=
  match dictGet rd k with
  | none => true
  | some (jlist xs) => xs.all (fun v => match v with | jdict _ => true | _ => false)
  | some _ => false

/-- A well-shaped (possibly absent) question entry of a partial rubric:
absent, or an object whose element lists (when present) are lists of
objects and whose `criterios_calidad` (when present) is a list. -/
def questionShapeOk (rubric : List (String × JVal)) (q : Nat) : Bool :=
  match dictGet rubric (qKey q) with
  | none => true
  | some (jdict rd) =>
      fieldListOk rd "elementos_obligatorios" && fieldListOk rd "elementos_deseables" &&
      (match dictGet rd "criterios_calidad" with
       | none => true
       | some (jlist _) => true
       | some _ => false)
  | some _ => false

/-- A missing or partial rubric, in the sense of claim C4. -/
def rubricShapeOk (rubric : List (String × JVal)) : Bool :=
  questionShapeOk rubric 1 && questionShapeOk rubric 2 && questionShapeOk rubric 3

/-! ## Spec-side definitions

These follow the wording of the specification (for refinement-style
comparisons with the code-side definitions above). -/

/-- The number of answers to question `q`: extracted documents carrying a
well-formed entry for that question (spec wording used by claim C8). -/
def numAnswersTo (answers : List ExtractedAnswer) (q : Nat) : Nat :=
  (answers.filter (fun d => (wfAnswer d (qKey q)).isSome)).length

/-- The number of answers to question `q` whose quality label is exactly
`lab` (spec wording used by claim C10). -/
def labelCount (answers : List ExtractedAnswer) (q : Nat) (lab : JVal) : Nat :=
  (answers.filter (fun d =>
    match wfAnswer d (qKey q) with
    | some kvs => ((dictGet kvs "calidad_estimada").getD (jstr "N/A")) == lab
    | none => false)).length

/-- The example one document contributes for one question, following the
spec wording of claim C6: an entry whose quality label equals the high
enumerated value yields its answer text truncated to 500 characters. -/
def specExample (d : ExtractedAnswer) (q : Nat) : Option RubricExample :=
  match dictGet d.answers (qKey q) with
  | some (jdict kvs) =>
      if ((dictGet kvs "calidad_estimada").getD jnull).eqStr "alta" then
        some ⟨q, d.student_name,
          jstr ((match (dictGet kvs "respuesta_completa").getD (jstr "") with
                 | jstr s => s
                 | _ => "").take 500)⟩
      else none
  | _ => none

/-- The high-quality example list as the spec words it (claim C6): the
document-then-question enumeration filtered to exactly the entries whose
quality label equals the high enumerated value. -/
def specHighQuality (answers : List ExtractedAnswer) : List RubricExample :=
  (answers.flatMap (fun d => [1, 2, 3].map (fun q => (d, q)))).filterMap
    (fun p => specExample p.1 p.2)

/-- Well-shaped extraction results for the rubric collector (claim C6):
every present question entry for questions 1–3 is an object whose
`respuesta_completa` field, when present, is a string. -/
def rubricCollectWF (answers : List ExtractedAnswer) : Bool :=
  answers.all (fun d => ([1, 2, 3] : List Nat).all (fun q =>
    match dictGet d.answers (qKey q) with
    | none => true
    | some (jdict kvs) =>
        (match dictGet kvs "respuesta_completa" with
         | none => true
         | some (jstr _) => true
         | some _ => false)
    | some _ => false))

/-- Concrete extraction results used by the C8 counterexample: only the
first document carries a well-formed entry for question 2. -/
def c8input : List ExtractedAnswer :=
  [⟨"S1", [("pregunta_2",
      jdict [("conceptos_mencionados", jlist [jstr "low-vol anomaly"])])]⟩,
   ⟨"S2", []⟩]

/-- Concrete extraction results used by the C6 witness: one document with a
high-quality answer to question 1. -/
def c6input : List ExtractedAnswer :=
  [⟨"A", [("pregunta_1",
      jdict [("calidad_estimada", jstr "alta"),
             ("respuesta_completa", jstr "una respuesta completa")])]⟩]

/-- The per-question context rendering as amended for claim C3: first three
key points for a non-empty key-point list, the first 200 characters for a
string key-point field, a placeholder when the entry is not an object or
lacks the field, and nothing at all when the field is present but an empty
list or of any other shape. -/
def renderAnswerLineAmended (q_num : String) (answer : JVal) : Except String String :=
  match answer with
  | jdict kvs =>
      match dictGet kvs "key_points" with
      | some (jlist (x :: xs)) =>
          (pyJoin ", " ((x :: xs).take 3)).map
            (fun s => "  Pregunta " ++ q_num ++ ": " ++ s ++ "...\n")
      | some (jstr s) => .ok ("  Pregunta " ++ q_num ++ ": " ++ s.take 200 ++ "...\n")
      | some _ => .ok ""
      | none => .ok ("  Pregunta " ++ q_num ++ ": [Análisis previo]\n")
  | _ => .ok ("  Pregunta " ++ q_num ++ ": [Análisis previo]\n")

/-- The output order required by the spec: a concept ranks before another
when it is strictly more frequent, or equally frequent with an earlier
first occurrence in the collected concept sequence `l`. -/
def rankBefore (l : List JVal) (a b : JVal × Nat) : Prop :=
  b.2 < a.2 ∨ (a.2 = b.2 ∧ l.indexOf a.1 < l.indexOf b.1)

/-! ## Lemmas about the Counter model -/

theorem mem_firstOccs {l : List JVal} {x : JVal} : x ∈ firstOccs l ↔ x ∈ l := by
  induction l with
  | nil => simp [firstOccs]
  | cons y ys ih =>
      by_cases hxy : x = y
      · subst hxy; simp [firstOccs]
      · simp [firstOccs, List.mem_filter, ih, hxy, bne_iff_ne]

theorem pairwise_indexOf_firstOccs (l : List JVal) :
    List.Pairwise (fun a b => l.indexOf a < l.indexOf b) (firstOccs l) := by
  induction l with
  | nil => simp [firstOccs]
  | cons x xs ih =>
      simp only [firstOccs]
      rw [List.pairwise_cons]
      constructor
      · intro y hy
        have hyx : y ≠ x := by
          have := (List.mem_filter.mp hy).2
          simpa [bne_iff_ne] using this
        rw [List.indexOf_cons_self, List.indexOf_cons_ne _ (Ne.symm hyx)]
        exact Nat.succ_pos _
      · have hf := ih.filter (fun y => y != x)
        refine hf.imp_of_mem ?_
        intro a b ha hb hab
        have hax : a ≠ x := by simpa [bne_iff_ne] using (List.mem_filter.mp ha).2
        have hbx : b ≠ x := by simpa [bne_iff_ne] using (List.mem_filter.mp hb).2
        rw [List.indexOf_cons_ne _ (Ne.symm hax), List.indexOf_cons_ne _ (Ne.symm hbx)]
        exact Nat.succ_lt_succ hab

theorem mem_counterItems {l : List JVal} {p : JVal × Nat} :
    p ∈ counterItems l ↔ p.1 ∈ l ∧ p.2 = l.count p.1 := by
  unfold counterItems
  constructor
  · intro hp
    rcases List.mem_map.mp hp with ⟨k, hk, rfl⟩
    exact ⟨mem_firstOccs.mp hk, rfl⟩
  · rintro ⟨h1, h2⟩
    refine List.mem_map.mpr ⟨p.1, mem_firstOccs.mpr h1, ?_⟩
    cases p
    simp_all

theorem pairwise_counterItems (l : List JVal) :
    List.Pairwise (fun a b => l.indexOf a.1 < l.indexOf b.1) (counterItems l) := by
  unfold counterItems
  rw [List.pairwise_map]
  exact pairwise_indexOf_firstOccs l

theorem mem_insertDesc {p a : JVal × Nat} {l : List (JVal × Nat)} :
    a ∈ insertDesc p l ↔ a = p ∨ a ∈ l := by
  induction l with
  | nil => simp [insertDesc]
  | cons q qs ih =>
      by_cases h : q.2 ≤ p.2
      · simp [insertDesc, h]
      · simp only [insertDesc, if_neg h, List.mem_cons, ih]
        tauto

theorem pairwise_insertDesc {R : JVal × Nat → JVal × Nat → Prop}
    (hR : ∀ a b, R a b → b.2 ≤ a.2) (p : JVal × Nat) {l : List (JVal × Nat)}
    (hl : List.Pairwise R l)
    (hp1 : ∀ q ∈ l, q.2 ≤ p.2 → R p q) (hp2 : ∀ q ∈ l, p.2 < q.2 → R q p) :
    List.Pairwise R (insertDesc p l) := by
  induction l with
  | nil => simp [insertDesc]
  | cons q qs ih =>
      rw [List.pairwise_cons] at hl
      by_cases h : q.2 ≤ p.2
      · simp only [insertDesc, if_pos h]
        rw [List.pairwise_cons]
        refine ⟨?_, List.pairwise_cons.mpr hl⟩
        intro y hy
        rcases List.mem_cons.mp hy with rfl | hy2
        · exact hp1 y (List.mem_cons_self _ _) h
        · have : y.2 ≤ q.2 := hR _ _ (hl.1 y hy2)
          exact hp1 y (List.mem_cons_of_mem _ hy2) (le_trans this h)
      · simp only [insertDesc, if_neg h]
        rw [List.pairwise_cons]
        constructor
        · intro y hy
          rcases mem_insertDesc.mp hy with rfl | hy2
          · exact hp2 q (List.mem_cons_self _ _) (Nat.lt_of_not_le h)
          · exact hl.1 y hy2
        · exact ih hl.2 (fun y hy hle => hp1 y (List.mem_cons_of_mem _ hy) hle)
            (fun y hy hlt => hp2 y (List.mem_cons_of_mem _ hy) hlt)

theorem mem_sortDesc {a : JVal × Nat} {l : List (JVal × Nat)} :
    a ∈ sortDesc l ↔ a ∈ l := by
  induction l with
  | nil => simp [sortDesc]
  | cons p ps ih => simp [sortDesc, mem_insertDesc, ih]

theorem rankBefore_le {l : List JVal} {a b : JVal × Nat} (h : rankBefore l a b) :
    b.2 ≤ a.2 := by
  rcases h with h | ⟨h, _⟩ <;> omega

theorem pairwise_sortDesc (l : List JVal) {items : List (JVal × Nat)}
    (h : List.Pairwise (fun a b => l.indexOf a.1 < l.indexOf b.1) items) :
    List.Pairwise (rankBefore l) (sortDesc items) := by
  induction items with
  | nil => simp [sortDesc]
  | cons p ps ih =>
      rw [List.pairwise_cons] at h
      simp only [sortDesc]
      refine pairwise_insertDesc (fun a b => rankBefore_le) p (ih h.2) ?_ ?_
      · intro q hq hle
        rcases Nat.lt_or_ge q.2 p.2 with hlt | hge
        · exact Or.inl hlt
        · exact Or.inr ⟨le_antisymm hge hle, h.1 q (mem_sortDesc.mp hq)⟩
      · intro q hq hlt
        exact Or.inl hlt

theorem pairwise_mostCommon (l : List JVal) (n : Nat) :
    List.Pairwise (rankBefore l) (mostCommon l n) :=
  (pairwise_sortDesc l (pairwise_counterItems l)).sublist (List.take_sublist n _)

theorem mostCommon_counts {l : List JVal} {n : Nat} {p : JVal × Nat}
    (hp : p ∈ mostCommon l n) : p.1 ∈ l ∧ p.2 = l.count p.1 :=
  mem_counterItems.mp (mem_sortDesc.mp ((List.take_sublist n _).subset hp))

theorem mostCommon_excluded {l : List JVal} {n : Nat} {x : JVal}
    (hx : x ∈ l) (hnot : x ∉ (mostCommon l n).map Prod.fst) :
    ∀ p ∈ mostCommon l n, rankBefore l p (x, l.count x) := by
  intro p hp
  have hfull : List.Pairwise (rankBefore l) (sortDesc (counterItems l)) :=
    pairwise_sortDesc l (pairwise_counterItems l)
  have hxitem : (x, l.count x) ∈ sortDesc (counterItems l) :=
    mem_sortDesc.mpr (mem_counterItems.mpr ⟨hx, rfl⟩)
  have hsplit := List.take_append_drop n (sortDesc (counterItems l))
  rw [← hsplit] at hfull hxitem
  rw [List.pairwise_append] at hfull
  rcases List.mem_append.mp hxitem with h | h
  · exact absurd (List.mem_map.mpr ⟨_, h, rfl⟩) hnot
  · exact hfull.2.2 p hp _ h

/-! ## Counting lemmas -/

theorem eqStr_iff {v : JVal} {k : String} : v.eqStr k = true ↔ v = jstr k := by
  cases v <;> simp [JVal.eqStr]

theorem find_map_keyed (l : List JVal) (k : String) :
    ∀ (keys : List JVal),
      (keys.map (fun x => (x, l.count x))).find? (fun p => p.1.eqStr k)
        = if jstr k ∈ keys then some (jstr k, l.count (jstr k)) else none
  | [] => by simp
  | x :: xs => by
      by_cases hxk : x = jstr k
      · subst hxk
        have hp : (fun p : JVal × Nat => p.1.eqStr k) (jstr k, l.count (jstr k)) = true := by
          simp [JVal.eqStr]
        rw [List.map_cons, if_pos (List.mem_cons_self _ _)]
        exact List.find?_cons_of_pos _ hp
      · rw [List.map_cons, List.find?_cons_of_neg, find_map_keyed l k xs]
        · simp [Ne.symm hxk]
        · simp [eqStr_iff, hxk]

theorem lookupCount_counterItems (l : List JVal) (k : String) :
    lookupCount (counterItems l) k = l.count (jstr k) := by
  unfold lookupCount counterItems
  rw [find_map_keyed l k (firstOccs l)]
  by_cases hk : jstr k ∈ l
  · simp [mem_firstOccs.mpr hk]
  · have h2 : jstr k ∉ firstOccs l := fun h => hk (mem_firstOccs.mp h)
    simp [h2, List.count_eq_zero.mpr hk]

theorem three_count_le_length {a b c : JVal} (hab : a ≠ b) (hac : a ≠ c)
    (hbc : b ≠ c) (l : List JVal) :
    l.count a + l.count b + l.count c ≤ l.length := by
  induction l with
  | nil => simp
  | cons x xs ih =>
      simp only [List.count_cons, List.length_cons]
      by_cases h1 : x = a <;> by_cases h2 : x = b <;> by_cases h3 : x = c <;>
        simp_all <;> omega

theorem count_qualityLabels (answers : List ExtractedAnswer) (qk : String) (lab : JVal) :
    (qualityLabels answers qk).count lab =
      (answers.filter (fun d =>
        match wfAnswer d qk with
        | some kvs => ((dictGet kvs "calidad_estimada").getD (jstr "N/A")) == lab
        | none => false)).length := by
  induction answers with
  | nil => rfl
  | cons d ds ih =>
      cases h : wfAnswer d qk with
      | none =>
          have hstep : qualityLabels (d :: ds) qk = qualityLabels ds qk := by
            simp [qualityLabels, List.filterMap_cons, h]
          rw [hstep, ih, List.filter_cons]
          simp [h]
      | some kvs =>
          have hstep : qualityLabels (d :: ds) qk =
              ((dictGet kvs "calidad_estimada").getD (jstr "N/A")) :: qualityLabels ds qk := by
            simp [qualityLabels, List.filterMap_cons, h]
          rw [hstep, List.count_cons, ih, List.filter_cons]
          by_cases hl : ((dictGet kvs "calidad_estimada").getD (jstr "N/A")) = lab
          · simp [h, hl]
          · simp [h, hl, Ne.symm hl]

/-! ## Loader lemmas -/

theorem load_split (g : List FileEntry) :
    (g.filterMap (fun f => match f.content with
      | .ok paras =>
          some (⟨f.name, f.parentName, f.parentPath, String.intercalate "\n" paras⟩ : Doc)
      | .error _ => none)).length +
    (g.filterMap (fun f => match f.content with
      | .ok _ => none
      | .error e => some e)).length = g.length := by
  induction g with
  | nil => rfl
  | cons f fs ih =>
      cases h : f.content <;> simp [List.filterMap_cons, h] <;> omega

theorem filterMap_sublist_map {α β : Type} (f : α → β) (g : α → Option β)
    (hg : ∀ a b, g a = some b → b = f a) (l : List α) :
    List.Sublist (l.filterMap g) (l.map f) := by
  induction l with
  | nil => simp
  | cons x xs ih =>
      rw [List.filterMap_cons, List.map_cons]
      cases h : g x with
      | none => exact ih.cons _
      | some b => rw [hg x b h]; exact ih.cons₂ _

/-! ## Extractor-pipeline lemmas -/

theorem stepResult_name {clientOk : Bool} {d : Doc}
    {r : Except String (List (String × JVal))} {a : ExtractedAnswer}
    (hs : stepResult clientOk d r = some a) : a.student_name = d.student_name := by
  unfold stepResult at hs
  by_cases hc : clientOk
  · rw [if_pos hc] at hs
    cases r with
    | error e => simp at hs
    | ok rr =>
        cases hp : printSummary rr with
        | error e => simp [hp] at hs
        | ok u =>
            simp [hp] at hs
            rw [← hs]
  · rw [if_neg hc] at hs
    simp at hs

theorem analyzeIteratively_ok (clientOk : Bool) :
    ∀ (l : List (Doc × Except String (List (String × JVal))))
      (acc res : List ExtractedAnswer),
      analyzeIteratively clientOk acc l = .ok res →
      res = acc ++ l.filterMap (fun p => stepResult clientOk p.1 p.2)
  | [], acc, res => by
      intro h
      simp [analyzeIteratively] at h
      simp [h]
  | (d, r) :: rest, acc, res => by
      intro h
      rw [List.filterMap_cons]
      cases hb : buildContext acc with
      | error e =>
          rw [analyzeIteratively, hb] at h
          simp only [Bind.bind, Except.bind] at h
          exact Except.noConfusion h
      | ok u =>
          rw [analyzeIteratively, hb] at h
          simp only [Bind.bind, Except.bind] at h
          cases hs : stepResult clientOk d r with
          | some a =>
              rw [hs] at h
              have := analyzeIteratively_ok clientOk rest (acc ++ [a]) res h
              simp [hs, this]
          | none =>
              rw [hs] at h
              have := analyzeIteratively_ok clientOk rest acc res h
              simp [hs, this]

theorem map_name_filterMap (clientOk : Bool)
    (l : List (Doc × Except String (List (String × JVal)))) :
    (l.filterMap (fun p => stepResult clientOk p.1 p.2)).map ExtractedAnswer.student_name
      = (l.filter (fun p => (stepResult clientOk p.1 p.2).isSome)).map
          (fun p => p.1.student_name) := by
  induction l with
  | nil => rfl
  | cons p rest ih =>
      obtain ⟨d, r⟩ := p
      cases hs : stepResult clientOk d r with
      | none => simp [List.filterMap_cons, List.filter_cons, hs, ih]
      | some a =>
          simp [List.filterMap_cons, List.filter_cons, hs, ih, stepResult_name hs]

/-! ## Claim theorems -/

/-- C1: for every extracted-answer list and each question, the Pattern
Synthesizer outputs concepts ranked by descending exact-match frequency,
with ties between equal-frequency concepts broken by first-occurrence order
across the document sequence; it keeps at most 10 concepts, every reported
frequency is the exact occurrence count, every concept left out ranks below
every concept kept (so the kept ones are the top 10), and the full list of
all key points is retained. -/
theorem c1_synthesizer_ranking (answers : List ExtractedAnswer) (q : Nat) :
    (synthesizeQuestion answers q).conceptos_frecuentes.length ≤ 10 ∧
    List.Pairwise (rankBefore (allConcepts answers (qKey q)))
      (synthesizeQuestion answers q).conceptos_frecuentes ∧
    (∀ p ∈ (synthesizeQuestion answers q).conceptos_frecuentes,
      p.1 ∈ allConcepts answers (qKey q) ∧
      p.2 = (allConcepts answers (qKey q)).count p.1) ∧
    (∀ x ∈ allConcepts answers (qKey q),
      x ∉ (synthesizeQuestion answers q).conceptos_frecuentes.map Prod.fst →
      ∀ p ∈ (synthesizeQuestion answers q).conceptos_frecuentes,
        rankBefore (allConcepts answers (qKey q)) p
          (x, (allConcepts answers (qKey q)).count x)) ∧
    (synthesizeQuestion answers q).puntos_clave_comunes
      = allKeyPoints answers (qKey q) := by
  refine ⟨?_, ?_, ?_, ?_, rfl⟩
  · exact List.length_take_le 10 _
  · exact pairwise_mostCommon _ 10
  · intro p hp
    exact mostCommon_counts hp
  · intro x hx hnot p hp
    exact mostCommon_excluded hx hnot p hp

/-- C5: a document whose extraction hits a JSON parse failure or a missing
client yields no result (it is skipped and contributes nothing), and the
accumulated list of successful extractions carries the student names in the
original document processing order. -/
theorem c5_extraction_order :
    (∀ (clientOk : Bool) (d : Doc) (e : String),
      stepResult clientOk d (.error e) = none) ∧
    (∀ (d : Doc) (r : Except String (List (String × JVal))),
      stepResult false d r = none) ∧
    (∀ (clientOk : Bool) (l : List (Doc × Except String (List (String × JVal))))
        (acc res : List ExtractedAnswer),
      analyzeIteratively clientOk acc l = .ok res →
      res.map ExtractedAnswer.student_name
        = acc.map ExtractedAnswer.student_name
          ++ (l.filter (fun p => (stepResult clientOk p.1 p.2).isSome)).map
              (fun p => p.1.student_name)) := by
  refine ⟨?_, ?_, ?_⟩
  · intro clientOk d e
    cases clientOk <;> rfl
  · intro d r
    rfl
  · intro clientOk l acc res h
    rw [analyzeIteratively_ok clientOk l acc res h, List.map_append,
      map_name_filterMap]

/-- C7: the loader excludes lock files (names beginning with the `~$`
marker), assigns each document a student identifier equal to its immediate
parent folder name, reports per-file read errors without aborting, and
returns exactly N − E documents in discovery order, where N counts the
non-lock files and E the unreadable ones among them. -/
theorem c7_loader (files : List FileEntry) :
    loadDocuments files
      = loadDocuments (files.filter (fun f => !(f.name.startsWith "~$"))) ∧
    (loadDocuments files).length + (loadErrors files).length
      = (files.filter (fun f => !(f.name.startsWith "~$"))).length ∧
    (loadDocuments files).length
      = (files.filter (fun f => !(f.name.startsWith "~$"))).length
        - (loadErrors files).length ∧
    (∀ d ∈ loadDocuments files, ∃ f, f ∈ files ∧ f.name.startsWith "~$" = false ∧
      d.filename = f.name ∧ d.student_name = f.parentName) ∧
    List.Sublist ((loadDocuments files).map Doc.filename)
      (files.map FileEntry.name) := by
  have hsplit : (loadDocuments files).length + (loadErrors files).length
      = (files.filter (fun f => !(f.name.startsWith "~$"))).length :=
    load_split (files.filter (fun f => !(f.name.startsWith "~$")))
  refine ⟨?_, hsplit, by omega, ?_, ?_⟩
  · unfold loadDocuments
    rw [List.filter_filter]
    simp [Bool.and_self]
  · intro d hd
    rcases List.mem_filterMap.mp hd with ⟨f, hf, hfd⟩
    rcases List.mem_filter.mp hf with ⟨hmem, hlock⟩
    refine ⟨f, hmem, by simpa using hlock, ?_, ?_⟩ <;>
      (cases hc : f.content with
       | ok paras => rw [hc] at hfd; simp_all; rw [← hfd]
       | error e => rw [hc] at hfd; simp_all)
  · have h1 : List.Sublist ((loadDocuments files).map Doc.filename)
        ((files.filter (fun f => !(f.name.startsWith "~$"))).map FileEntry.name) := by
      unfold loadDocuments
      rw [List.map_filterMap]
      refine filterMap_sublist_map FileEntry.name _ ?_ _
      intro a b hab
      cases hc : a.content <;> rw [hc] at hab <;> simp_all
    exact h1.trans ((List.filter_sublist _).map FileEntry.name)

/-- C10: in the exported per-question summary table the three quality
columns count exactly the answers whose quality label is `alta`, `media`
and `baja` respectively (0 when a label is absent), the total-answers
column counts every extracted document, and the three quality columns sum
to at most the total (an answer with any other or missing label counts in
the total only). -/
theorem c10_quality_columns (answers : List ExtractedAnswer) (q : Nat) :
    (patternReportRow (synthesizeQuestion answers q)).calidadAlta
        = labelCount answers q (jstr "alta") ∧
    (patternReportRow (synthesizeQuestion answers q)).calidadMedia
        = labelCount answers q (jstr "media") ∧
    (patternReportRow (synthesizeQuestion answers q)).calidadBaja
        = labelCount answers q (jstr "baja") ∧
    (patternReportRow (synthesizeQuestion answers q)).totalRespuestas
        = answers.length ∧
    (patternReportRow (synthesizeQuestion answers q)).calidadAlta
      + (patternReportRow (synthesizeQuestion answers q)).calidadMedia
      + (patternReportRow (synthesizeQuestion answers q)).calidadBaja
      ≤ answers.length := by
  have ha : (patternReportRow (synthesizeQuestion answers q)).calidadAlta
      = (qualityLabels answers (qKey q)).count (jstr "alta") :=
    lookupCount_counterItems _ _
  have hm : (patternReportRow (synthesizeQuestion answers q)).calidadMedia
      = (qualityLabels answers (qKey q)).count (jstr "media") :=
    lookupCount_counterItems _ _
  have hb : (patternReportRow (synthesizeQuestion answers q)).calidadBaja
      = (qualityLabels answers (qKey q)).count (jstr "baja") :=
    lookupCount_counterItems _ _
  refine ⟨?_, ?_, ?_, rfl, ?_⟩
  · rw [ha, count_qualityLabels]
    rfl
  · rw [hm, count_qualityLabels]
    rfl
  · rw [hb, count_qualityLabels]
    rfl
  · rw [ha, hm, hb]
    have hd : (jstr "alta") ≠ (jstr "media") := by simp
    have hd2 : (jstr "alta") ≠ (jstr "baja") := by simp
    have hd3 : (jstr "media") ≠ (jstr "baja") := by simp
    refine le_trans (three_count_le_length hd hd2 hd3 _) ?_
    exact List.length_filterMap_le _ _

/-- C8 counterexample: with the two documents of `c8input` — only the
first has a well-formed entry for question 2 — the stored total answer
count is 2 although exactly one answer to question 2 exists, and the
printed percentage for the concept occurring in that single answer is 50%,
not the (1/1)·100 = 100% the claim prescribes. -/
theorem c8_counterexample :
    (synthesizeQuestion c8input 2).total_respuestas = 2 ∧
    numAnswersTo c8input 2 = 1 ∧
    (synthesizeQuestion c8input 2).total_respuestas ≠ numAnswersTo c8input 2 ∧
    allConcepts c8input (qKey 2) = [jstr "low-vol anomaly"] ∧
    printedPercentage c8input 1 = 50 ∧
    (1 : ℚ) / ((numAnswersTo c8input 2 : Nat) : ℚ) * 100 = 100 ∧
    (50 : ℚ) ≠ 100 := by
  refine ⟨rfl, rfl, by decide, rfl, ?_, ?_, by norm_num⟩
  · show ((1 : Nat) : ℚ) / ((2 : Nat) : ℚ) * 100 = 50
    norm_num
  · show (1 : ℚ) / (((1 : Nat) : Nat) : ℚ) * 100 = 100
    norm_num

/-- C8 amended: the stored per-question total equals the number of
extracted documents (not the number of well-formed answers to that
question); every reported concept frequency is the exact occurrence count
of the concept across the answers to the question, and the printed
percentage divides that frequency by the number of extracted documents;
when every extracted document has a well-formed entry for the question the
two denominators coincide, recovering the spec's 6-of-10 = 60% example. -/
theorem c8_percentages_amended (answers : List ExtractedAnswer) (q : Nat) :
    (synthesizeQuestion answers q).total_respuestas = answers.length ∧
    (∀ p ∈ (synthesizeQuestion answers q).conceptos_frecuentes,
      p.2 = (allConcepts answers (qKey q)).count p.1 ∧
      printedPercentage answers p.2
        = (((allConcepts answers (qKey q)).count p.1 : Nat) : ℚ)
            / ((answers.length : Nat) : ℚ) * 100) ∧
    ((∀ d ∈ answers, (wfAnswer d (qKey q)).isSome) →
      numAnswersTo answers q = answers.length) := by
  refine ⟨rfl, ?_, ?_⟩
  · intro p hp
    have h := (mostCommon_counts hp).2
    exact ⟨h, by rw [← h]; rfl⟩
  · intro h
    unfold numAnswersTo
    rw [List.filter_eq_self.mpr h]

/-- C3 counterexample: a prior answer whose `key_points` field is present
but an empty list renders nothing at all for that question — not the
placeholder the claim promises when neither key points nor a textual
summary are usable. -/
theorem c3_counterexample :
    renderAnswerLine "1" (jdict [("key_points", jlist [])]) = Except.ok "" ∧
    renderAnswerLine "1" (jdict [("key_points", jlist [])])
      ≠ Except.ok "  Pregunta 1: [Análisis previo]\n" := by
  refine ⟨rfl, ?_⟩
  intro h
  rw [show renderAnswerLine "1" (jdict [("key_points", jlist [])]) = Except.ok ""
    from rfl] at h
  simp at h

/-- C3 amended: the rolling context is built from at most the three most
recently processed prior documents — it depends only on them — and each
question entry renders its first three key points when the key-point field
is a non-empty list, its first 200 characters when the field is a string, a
placeholder when the entry is not an object or lacks the field, and nothing
at all when the field is present but an empty list or of any other shape
(where the original claim promised a placeholder). -/
theorem c3_context_amended :
    (∀ prior : List ExtractedAnswer,
      buildContext prior = buildContext (prior.drop (prior.length - 3))) ∧
    (∀ (q_num : String) (answer : JVal),
      renderAnswerLine q_num answer = renderAnswerLineAmended q_num answer) := by
  constructor
  · intro prior
    by_cases h : prior.isEmpty
    · rw [List.isEmpty_iff.mp h]
      rfl
    · have hne : prior ≠ [] := fun hh => h (by simp [hh])
      have hlen : prior.length ≠ 0 := fun hh => hne (List.length_eq_zero.mp hh)
      have h2 : (prior.drop (prior.length - 3)).isEmpty = false := by
        rw [List.isEmpty_eq_false]
        intro hh
        have := congrArg List.length hh
        rw [List.length_drop] at this
        simp at this
        omega
      have h3 : (prior.drop (prior.length - 3)).length - 3 = 0 := by
        rw [List.length_drop]
        omega
      unfold buildContext
      rw [Bool.eq_false_iff] at h2
      rw [if_neg (by simpa using h), if_neg (by simpa using h2), h3,
        List.drop_zero]
  · intro q_num answer
    cases answer with
    | jdict kvs =>
        cases hk : dictGet kvs "key_points" with
        | none => simp [renderAnswerLine, renderAnswerLineAmended, hk]
        | some kp =>
            cases kp with
            | jlist xs =>
                cases xs with
                | nil => simp [renderAnswerLine, renderAnswerLineAmended, hk]
                | cons x rest => simp [renderAnswerLine, renderAnswerLineAmended, hk]
            | jstr s => simp [renderAnswerLine, renderAnswerLineAmended, hk]
            | jnull => simp [renderAnswerLine, renderAnswerLineAmended, hk]
            | jbool b => simp [renderAnswerLine, renderAnswerLineAmended, hk]
            | jnum n => simp [renderAnswerLine, renderAnswerLineAmended, hk]
            | jdict dd => simp [renderAnswerLine, renderAnswerLineAmended, hk]
    | jnull => rfl
    | jbool b => rfl
    | jnum n => rfl
    | jstr s => rfl
    | jlist xs => rfl

/-- C2 (code bug): the rubric generator's example collection
(`rev.py:344-345`) reads `.get` on a question entry without the
`isinstance` guard used at every other consumption point, so a question
entry that is a string raises `AttributeError` instead of being normalised;
the guarded points handle the same input, and an answer omitting
`key_points` still yields a key-point count of 0 in the student-detail
export without raising. -/
theorem c2_rubric_collection_raises :
    collectHighQuality [⟨"A", [("pregunta_1", jstr "texto")]⟩]
      = Except.error "AttributeError" ∧
    (synthesizeQuestion [⟨"A", [("pregunta_1", jstr "texto")]⟩] 1).total_respuestas
      = 1 ∧
    studentDetails [⟨"A", [("pregunta_1", jstr "texto")]⟩] = Except.ok [] ∧
    studentDetails [⟨"A", [("pregunta_1", jdict [("calidad_estimada", jstr "media")])]⟩]
      = Except.ok [⟨"A", 1, "", 0, jnum 0, jstr "media"⟩] :=
  ⟨rfl, rfl, rfl, rfl⟩

/-- C9 counterexample: the extractor stores the parsed response verbatim,
so a response carrying only a `pregunta_4` key is kept as an extracted
answer whose per-question key set is not the three fixed question
indices. -/
theorem c9_counterexample :
    stepResult true ⟨"d.docx", "A", "/A", "t"⟩ (.ok [("pregunta_4", jnull)])
      = some ⟨"A", [("pregunta_4", jnull)]⟩ ∧
    ([("pregunta_4", jnull)] : List (String × JVal)).map Prod.fst
      ≠ ["pregunta_1", "pregunta_2", "pregunta_3"] :=
  ⟨rfl, by decide⟩

theorem studentRowsFor_pregunta {d : ExtractedAnswer} {q : Nat}
    {rs : List StudentRow} (h : studentRowsFor d q = .ok rs) :
    ∀ r ∈ rs, r.pregunta = q := by
  unfold studentRowsFor at h
  cases hw : wfAnswer d (qKey q) with
  | none =>
      rw [hw] at h
      simp at h
      subst h
      intro r hr
      simp at hr
  | some kvs =>
      rw [hw] at h
      simp only [Bind.bind, Except.bind] at h
      cases hj : pyJoin ", "
          (normList ((dictGet kvs "conceptos_mencionados").getD (jlist []))) with
      | error e =>
          rw [hj] at h
          exact Except.noConfusion h
      | ok s =>
          rw [hj] at h
          simp at h
          subst h
          intro r hr
          simp at hr
          subst hr
          rfl

theorem studentDetails_pregunta :
    ∀ (answers : List ExtractedAnswer) {rows : List StudentRow},
      studentDetails answers = .ok rows →
      ∀ row ∈ rows, row.pregunta ∈ ([1, 2, 3] : List Nat)
  | [], rows => by
      intro h row hr
      simp [studentDetails] at h
      subst h
      simp at hr
  | d :: ds, rows => by
      intro h row hr
      rw [studentDetails] at h
      simp only [Bind.bind, Except.bind] at h
      cases h1 : studentRowsFor d 1 with
      | error e => rw [h1] at h; exact Except.noConfusion h
      | ok r1 =>
          rw [h1] at h
          cases h2 : studentRowsFor d 2 with
          | error e => rw [h2] at h; exact Except.noConfusion h
          | ok r2 =>
              rw [h2] at h
              cases h3 : studentRowsFor d 3 with
              | error e => rw [h3] at h; exact Except.noConfusion h
              | ok r3 =>
                  rw [h3] at h
                  cases hrest : studentDetails ds with
                  | error e => rw [hrest] at h; exact Except.noConfusion h
                  | ok rest =>
                      rw [hrest] at h
                      simp at h
                      subst h
                      simp only [List.mem_append] at hr
                      rcases hr with hr | hr | hr | hr
                      · rw [studentRowsFor_pregunta h1 row hr]; simp
                      · rw [studentRowsFor_pregunta h2 row hr]; simp
                      · rw [studentRowsFor_pregunta h3 row hr]; simp
                      · exact studentDetails_pregunta ds hrest row hr

/-- C9 amended: the question list has exactly 3 entries and the
pipeline-derived per-question structures are keyed by exactly the three
fixed indices — the synthesizer's pattern analysis carries the keys
`pregunta_1 .. pregunta_3` in order and every exported per-student row has
a question number in {1,2,3} — while extractor and rubric responses are
stored verbatim and may carry other keys. -/
theorem c9_question_keys_amended (answers : List ExtractedAnswer) :
    PREGUNTAS.length = 3 ∧
    (patternAnalysis answers).map Prod.fst
      = ["pregunta_1", "pregunta_2", "pregunta_3"] ∧
    (∀ rows : List StudentRow, studentDetails answers = .ok rows →
      ∀ row ∈ rows, row.pregunta ∈ ([1, 2, 3] : List Nat)) := by
  refine ⟨rfl, rfl, ?_⟩
  intro rows h row hr
  exact studentDetails_pregunta answers h row hr

theorem fmtElem_ok {v : JVal}
    (h : (match v with | jdict _ => true | _ => false) = true) :
    ∃ s, fmtElem v = .ok s := by
  cases v with
  | jdict kvs => exact ⟨_, rfl⟩
  | jnull => simp at h
  | jbool b => simp at h
  | jnum n => simp at h
  | jstr s => simp at h
  | jlist xs => simp at h

theorem mapExcept_fmtElem_ok {xs : List JVal}
    (h : xs.all (fun v => match v with | jdict _ => true | _ => false) = true) :
    ∃ ss, mapExcept fmtElem xs = .ok ss := by
  induction xs with
  | nil => exact ⟨[], rfl⟩
  | cons x rest ih =>
      rw [List.all_cons, Bool.and_eq_true] at h
      obtain ⟨s, hs⟩ := fmtElem_ok h.1
      obtain ⟨ss, hss⟩ := ih h.2
      refine ⟨s :: ss, ?_⟩
      rw [mapExcept]
      simp only [Bind.bind, Except.bind, hs, hss]

theorem fieldList_iter_ok {rd : List (String × JVal)} {k : String}
    (h : fieldListOk rd k = true) :
    ∃ ls, pyIterList ((dictGet rd k).getD (jlist [])) = .ok ls ∧
      ∃ ss, mapExcept fmtElem ls = .ok ss := by
  unfold fieldListOk at h
  cases hk : dictGet rd k with
  | none => exact ⟨[], rfl, [], rfl⟩
  | some v =>
      rw [hk] at h
      cases v with
      | jlist xs => exact ⟨xs, rfl, mapExcept_fmtElem_ok h⟩
      | jnull => simp at h
      | jbool b => simp at h
      | jnum n => simp at h
      | jstr s => simp at h
      | jdict d => simp at h

theorem critIter_ok {rdd : List (String × JVal)}
    (hcrit : (match dictGet rdd "criterios_calidad" with
              | none => true
              | some (jlist _) => true
              | some _ => false) = true) :
    ∃ zs, pyIterList ((dictGet rdd "criterios_calidad").getD (jlist [])) = .ok zs := by
  cases hc : dictGet rdd "criterios_calidad" with
  | none => exact ⟨[], rfl⟩
  | some cv =>
      rw [hc] at hcrit
      cases cv with
      | jlist zs => exact ⟨zs, rfl⟩
      | jnull => simp at hcrit
      | jbool b => simp at hcrit
      | jnum n => simp at hcrit
      | jstr s => simp at hcrit
      | jdict d => simp at hcrit

theorem questionSection_ok {rubric : List (String × JVal)} {q : Nat}
    (h : questionShapeOk rubric q = true) :
    ∃ s, questionSection rubric q = .ok s := by
  unfold questionShapeOk at h
  cases hq : dictGet rubric (qKey q) with
  | none =>
      refine ⟨"", ?_⟩
      unfold questionSection
      rw [hq]
  | some rd =>
      rw [hq] at h
      cases rd with
      | jnull => simp at h
      | jbool b => simp at h
      | jnum n => simp at h
      | jstr s => simp at h
      | jlist xs => simp at h
      | jdict rdd =>
          rw [Bool.and_eq_true, Bool.and_eq_true] at h
          obtain ⟨⟨hob, hdes⟩, hcrit⟩ := h
          obtain ⟨obL, hobIter, obSS, hobMap⟩ := fieldList_iter_ok hob
          obtain ⟨zs, hzs⟩ := critIter_ok hcrit
          unfold questionSection
          rw [hq]
          simp only [JVal.pyGet, Bind.bind, Except.bind]
          rw [hobIter]
          simp only [hobMap]
          unfold fieldListOk at hdes
          cases hdes' : dictGet rdd "elementos_deseables" with
          | none =>
              simp only [Option.getD_none]
              rw [if_neg (by decide)]
              simp only [pure, Except.pure]
              rw [hzs]
              exact ⟨_, rfl⟩
          | some dv =>
              rw [hdes'] at hdes
              simp only [Option.getD_some]
              cases dv with
              | jnull => simp at hdes
              | jbool b => simp at hdes
              | jnum n => simp at hdes
              | jstr s => simp at hdes
              | jdict d => simp at hdes
              | jlist ys =>
                  obtain ⟨desSS, hdesMap⟩ := mapExcept_fmtElem_ok hdes
                  by_cases hty : pyTruthy (jlist ys) = true
                  · rw [if_pos hty,
                      show pyIterList (jlist ys) = Except.ok ys from rfl]
                    simp only [hdesMap, pure, Except.pure]
                    rw [hzs]
                    exact ⟨_, rfl⟩
                  · rw [if_neg hty]
                    simp only [pure, Except.pure]
                    rw [hzs]
                    exact ⟨_, rfl⟩

theorem exportRubricText_ok {rubric : List (String × JVal)}
    (h : rubricShapeOk rubric = true) : ∃ s, exportRubricText rubric = .ok s := by
  unfold rubricShapeOk at h
  rw [Bool.and_eq_true, Bool.and_eq_true] at h
  obtain ⟨⟨h1, h2⟩, h3⟩ := h
  obtain ⟨s1, hs1⟩ := questionSection_ok h1
  obtain ⟨s2, hs2⟩ := questionSection_ok h2
  obtain ⟨s3, hs3⟩ := questionSection_ok h3
  unfold exportRubricText
  simp only [Bind.bind, Except.bind, hs1, hs2, hs3]
  exact ⟨_, rfl⟩

/-- C4: when rubric generation fails — the client is unavailable or the
request/parse step yields an error — the rubric keeps its state from
before generation (so it stays empty when it was empty); every
rubric-consuming export step completes without crashing on a missing or
partial rubric, and the JSON artifact's content is the rubric verbatim. -/
theorem c4_rubric_failure (answers : List ExtractedAnswer) (clientOk : Bool)
    (resp : Except String (List (String × JVal)))
    (rubric0 : List (String × JVal)) (ex : List RubricExample)
    (hcollect : collectHighQuality answers = .ok ex)
    (hfail : clientOk = false ∨ ∃ e, resp = .error e) :
    generateRubric answers clientOk resp rubric0 = .ok rubric0 ∧
    (∀ rubric : List (String × JVal), rubricShapeOk rubric = true →
      ∃ s, exportRubricText rubric = .ok s) ∧
    (∀ rubric : List (String × JVal), rubricJsonContent rubric = rubric) := by
  refine ⟨?_, fun rubric hr => exportRubricText_ok hr, fun rubric => rfl⟩
  unfold generateRubric
  rw [hcollect]
  simp only [Bind.bind, Except.bind]
  rcases hfail with hc | ⟨e, he⟩
  · rw [hc]
    rfl
  · rw [he]
    cases clientOk <;> rfl

/-- Witness for C4: a concrete failed generation (missing client,
errored response) leaves the empty rubric empty, and the export steps
tolerate it. -/
theorem c4_rubric_failure_witness :
    generateRubric [] false (Except.error "network error") [] = .ok [] ∧
    (∀ rubric : List (String × JVal), rubricShapeOk rubric = true →
      ∃ s, exportRubricText rubric = .ok s) ∧
    (∀ rubric : List (String × JVal), rubricJsonContent rubric = rubric) :=
  c4_rubric_failure [] false (Except.error "network error") [] [] rfl (Or.inl rfl)

theorem filterMap_cons_toList {α β : Type} (f : α → Option β) (a : α) (l : List α) :
    List.filterMap f (a :: l) = (f a).toList ++ List.filterMap f l := by
  cases h : f a <;> simp [List.filterMap_cons, h]

theorem qExample_wf {d : ExtractedAnswer} {q : Nat}
    (h : (match dictGet d.answers (qKey q) with
          | none => true
          | some (jdict kvs) =>
              (match dictGet kvs "respuesta_completa" with
               | none => true
               | some (jstr _) => true
               | some _ => false)
          | some _ => false) = true) :
    qExample d q = .ok (specExample d q).toList := by
  unfold qExample specExample
  cases hq : dictGet d.answers (qKey q) with
  | none => rfl
  | some v =>
      rw [hq] at h
      cases v with
      | jnull => simp at h
      | jbool b => simp at h
      | jnum n => simp at h
      | jstr s => simp at h
      | jlist xs => simp at h
      | jdict kvs =>
          have h' : (match dictGet kvs "respuesta_completa" with
                     | none => true
                     | some (jstr _) => true
                     | some _ => false) = true := h
          simp only [JVal.pyGet, Bind.bind, Except.bind]
          by_cases hc : ((dictGet kvs "calidad_estimada").getD jnull).eqStr "alta" = true
          · rw [if_pos hc, if_pos hc]
            cases hr : dictGet kvs "respuesta_completa" with
            | none => simp [Option.getD_none, pySlice, Option.toList]
            | some rv =>
                rw [hr] at h'
                cases rv with
                | jstr s => simp [Option.getD_some, pySlice, Option.toList]
                | jnull => simp at h'
                | jbool b => simp at h'
                | jnum n => simp at h'
                | jlist xs => simp at h'
                | jdict dd => simp at h'
          · rw [if_neg hc, if_neg hc]
            rfl

theorem collectHighQuality_wf {answers : List ExtractedAnswer}
    (h : rubricCollectWF answers = true) :
    collectHighQuality answers = .ok (specHighQuality answers) := by
  induction answers with
  | nil => rfl
  | cons d ds ih =>
      rw [rubricCollectWF, List.all_cons, Bool.and_eq_true] at h
      obtain ⟨hd, hds⟩ := h
      rw [List.all_cons, List.all_cons, List.all_cons, List.all_nil,
        Bool.and_eq_true, Bool.and_eq_true, Bool.and_eq_true] at hd
      obtain ⟨h1, h2, h3, _⟩ := hd
      rw [collectHighQuality, qExample_wf h1, qExample_wf h2, qExample_wf h3,
        ih hds]
      simp only [Bind.bind, Except.bind]
      have hspec : specHighQuality (d :: ds)
          = (specExample d 1).toList ++ ((specExample d 2).toList
            ++ ((specExample d 3).toList ++ specHighQuality ds)) := by
        rw [specHighQuality, List.flatMap_cons, List.filterMap_append,
          List.map_cons, List.map_cons, List.map_cons, List.map_nil,
          filterMap_cons_toList, filterMap_cons_toList, filterMap_cons_toList,
          List.filterMap_nil, List.append_nil]
        simp [specHighQuality, List.append_assoc]
      rw [hspec]
      simp [List.append_assoc]

/-- C6: under well-shaped extraction results, the rubric generator's
high-quality collection equals the spec-side enumeration — documents in
order and questions 1–3 inside each, keeping exactly the entries whose
quality label equals the high enumerated value (`alta`) with the answer
text truncated to 500 characters — and the prompt uses at most the first 6
of them. -/
theorem c6_high_quality_examples (answers : List ExtractedAnswer)
    (h : rubricCollectWF answers = true) :
    collectHighQuality answers = .ok (specHighQuality answers) ∧
    promptExamples answers = .ok ((specHighQuality answers).take 6) ∧
    ((specHighQuality answers).take 6).length ≤ 6 ∧
    (∀ ex ∈ specHighQuality answers, ∃ d ∈ answers, ∃ q ∈ ([1, 2, 3] : List Nat),
      specExample d q = some ex) := by
  have hc := collectHighQuality_wf h
  refine ⟨hc, ?_, List.length_take_le 6 _, ?_⟩
  · unfold promptExamples
    rw [hc]
    rfl
  · intro ex hex
    rcases List.mem_filterMap.mp hex with ⟨p, hp, hpe⟩
    rcases List.mem_flatMap.mp hp with ⟨d, hd, hdp⟩
    rcases List.mem_map.mp hdp with ⟨q, hq, rfl⟩
    exact ⟨d, hd, q, hq, hpe⟩

/-- Witness for C6 at `c6input`: its single high-quality answer is
collected with its text kept, and the prompt cap applies. -/
theorem c6_high_quality_examples_witness :
    collectHighQuality c6input = .ok (specHighQuality c6input) ∧
    promptExamples c6input = .ok ((specHighQuality c6input).take 6) ∧
    ((specHighQuality c6input).take 6).length ≤ 6 ∧
    (∀ ex ∈ specHighQuality c6input, ∃ d ∈ c6input, ∃ q ∈ ([1, 2, 3] : List Nat),
      specExample d q = some ex) :=
  c6_high_quality_examples c6input rfl
